import Mathlib

/-!
Shallow embedding of `src/aws_email_sender.py` (AWS SES email sender).

The SES provider client (`boto3.client('ses', ...)`) is modelled as a record
of functions, one per API call the code uses, each returning
`Except ClientError _`: the only exception type the code catches is
`botocore.exceptions.ClientError`, so a provider-reported failure is the
`Except.error` branch.  `print` calls are modelled by an explicit log list in
the operation result.  The multipart/alternative MIME document built by
`send_raw_email` is modelled structurally: its standard headers and the
ordered list of attached parts (the order of `msg.attach` calls).  Methods
pass the `AWSEmailSender` state explicitly and return the state after the
call, which lets frame properties be stated.
-/

namespace AwsSes

/-- Truthiness of a Python optional string argument: `None` and `""` are
falsy, every non-empty string is truthy (`if text_content:`). -/
def truthyStr : Option String → Bool
  | none => false
  | some s => !s.isEmpty

/-- Truthiness of a Python optional list argument: `None` and `[]` are
falsy, every non-empty list is truthy (`if cc_emails:`). -/
def truthyList : Option (List String) → Bool
  | none => false
  | some l => !l.isEmpty

/-- A provider error (`botocore.exceptions.ClientError`), carrying the
string rendering that the code prints. -/
structure ClientError where
  msg : String
  deriving Repr, DecidableEq

/-- Response of the SES `send_email` / `send_raw_email` calls: the receipt
returned to the caller, carrying the provider-issued message identifier. -/
structure SendResponse where
  MessageId : String
  deriving Repr, DecidableEq

/-- Response of the SES `get_send_quota` call: sending ceiling for the
rolling 24-hour window, max send rate (messages/second), and count sent in
the current rolling window.  The code passes the values through without
inspecting them, so their carrier type is immaterial; strings are used. -/
structure QuotaResponse where
  Max24HourSend : String
  MaxSendRate : String
  SentLast24Hours : String
  deriving Repr, DecidableEq

/-- The `destination` dict of `send_email`: `CcAddresses` / `BccAddresses`
are optional keys (present only when the corresponding branch ran). -/
structure Destination where
  ToAddresses : List String
  CcAddresses : Option (List String)
  BccAddresses : Option (List String)
  deriving Repr, DecidableEq

/-- A `{'Data': ..., 'Charset': ...}` dict of the structured message. -/
structure ContentField where
  Data : String
  Charset : String
  deriving Repr, DecidableEq

/-- The `Body` dict of the structured message: `Html` always present,
`Text` an optional key. -/
structure MessageBody where
  Html : ContentField
  Text : Option ContentField
  deriving Repr, DecidableEq

/-- The `message` dict of `send_email`. -/
structure SesMessage where
  Subject : ContentField
  Body : MessageBody
  deriving Repr, DecidableEq

/-- MIME subtype of a part attached to the multipart/alternative message. -/
inductive MimeSubtype
  | plain
  | html
  deriving Repr, DecidableEq

/-- One `MIMEText` part: subtype, content, charset. -/
structure MimePart where
  subtype : MimeSubtype
  content : String
  charset : String
  deriving Repr, DecidableEq

/-- The `MIMEMultipart('alternative')` message of `send_raw_email`,
modelled structurally: the standard headers set by the code and the ordered
list of attached parts (serialization order). -/
structure MimeMessage where
  Subject : String
  From : String
  To : String
  parts : List MimePart
  deriving Repr, DecidableEq

/-- Keyword arguments of the SES `send_email` API call. -/
structure SendEmailParams where
  Source : String
  Destination : Destination
  Message : SesMessage
  deriving Repr, DecidableEq

/-- Keyword arguments of the SES `send_raw_email` API call.  `RawMessage`
carries the MIME document (the code serializes it with `msg.as_string()`;
the document is modelled structurally). -/
structure SendRawEmailParams where
  Source : String
  Destinations : List String
  RawMessage : MimeMessage
  deriving Repr, DecidableEq

/-- The SES provider client: one function per API call the code performs.
`Except.error` is a provider-reported failure (`ClientError`). -/
structure SesClient where
  sendEmailApi : SendEmailParams → Except ClientError SendResponse
  sendRawEmailApi : SendRawEmailParams → Except ClientError SendResponse
  verifyEmailIdentityApi : String → Except ClientError Unit
  getSendQuotaApi : Unit → Except ClientError QuotaResponse

/-- The `AWSEmailSender` object: region configuration and the provider
client, both fixed at construction (`__init__`). -/
structure AWSEmailSender where
  region_name : String
  ses_client : SesClient

/-- Result of one method call: the object state after the call, the list of
messages printed during the call, and the returned value. -/
structure OpResult (α : Type) where
  state : AWSEmailSender
  log : List String
  result : α

/-- The `destination` dict built by `send_email` (lines 45-52): `ToAddresses`
always `recipient_emails`; `CcAddresses` / `BccAddresses` added only when
the argument is truthy. -/
def buildDestination (recipient_emails : List String)
    (cc_emails bcc_emails : Option (List String)) : Destination :=
  { ToAddresses := recipient_emails
    CcAddresses := if truthyList cc_emails then cc_emails else none
    BccAddresses := if truthyList bcc_emails then bcc_emails else none }

/-- The `message` dict built by `send_email` (lines 55-73): `Html` always
present with the given content, `Text` added only when `text_content` is
truthy. -/
def buildSesMessage (subject html_content : String)
    (text_content : Option String) : SesMessage :=
  { Subject := { Data := subject, Charset := "UTF-8" }
    Body :=
      { Html := { Data := html_content, Charset := "UTF-8" }
        Text :=
          if truthyStr text_content then
            some { Data := text_content.getD "", Charset := "UTF-8" }
          else none } }

/-- The MIME document built by `send_raw_email` (lines 104-116): headers
`Subject`, `From`, `To` (comma-joined recipients); a plain-text part
attached first when `text_content` is truthy, then the HTML part. -/
def buildRawMime (sender_email : String) (recipient_emails : List String)
    (subject html_content : String) (text_content : Option String) :
    MimeMessage :=
  { Subject := subject
    From := sender_email
    To := String.intercalate ", " recipient_emails
    parts :=
      (if truthyStr text_content then
        [{ subtype := MimeSubtype.plain, content := text_content.getD "",
           charset := "utf-8" }]
      else []) ++
      [{ subtype := MimeSubtype.html, content := html_content,
         charset := "utf-8" }] }

/-- The keyword arguments `send_email` passes to the provider (lines 76-80). -/
def sendEmailParams (sender_email : String) (recipient_emails : List String)
    (subject html_content : String) (text_content : Option String)
    (cc_emails bcc_emails : Option (List String)) : SendEmailParams :=
  { Source := sender_email
    Destination := buildDestination recipient_emails cc_emails bcc_emails
    Message := buildSesMessage subject html_content text_content }

/-- The keyword arguments `send_raw_email` passes to the provider (lines
119-123): `Destinations` is the `recipient_emails` parameter itself. -/
def rawSendParams (sender_email : String) (recipient_emails : List String)
    (subject html_content : String) (text_content : Option String) :
    SendRawEmailParams :=
  { Source := sender_email
    Destinations := recipient_emails
    RawMessage :=
      buildRawMime sender_email recipient_emails subject html_content
        text_content }

/-- `AWSEmailSender.send_email` (lines 27-86): builds destination and
message, calls the provider; on `ClientError` prints the failure and
returns `None`, otherwise returns the provider response. -/
def send_email (s : AWSEmailSender) (sender_email : String)
    (recipient_emails : List String) (subject html_content : String)
    (text_content : Option String)
    (cc_emails bcc_emails : Option (List String)) :
    OpResult (Option SendResponse) :=
  match s.ses_client.sendEmailApi
      (sendEmailParams sender_email recipient_emails subject html_content
        text_content cc_emails bcc_emails) with
  | Except.ok r => { state := s, log := [], result := some r }
  | Except.error e =>
      { state := s, log := ["Error sending email: " ++ e.msg],
        result := none }

/-- `AWSEmailSender.send_raw_email` (lines 88-129): builds the MIME
document, calls the provider's raw-send; on `ClientError` prints the
failure and returns `None`, otherwise returns the provider response. -/
def send_raw_email (s : AWSEmailSender) (sender_email : String)
    (recipient_emails : List String) (subject html_content : String)
    (text_content : Option String) : OpResult (Option SendResponse) :=
  match s.ses_client.sendRawEmailApi
      (rawSendParams sender_email recipient_emails subject html_content
        text_content) with
  | Except.ok r => { state := s, log := [], result := some r }
  | Except.error e =>
      { state := s, log := ["Error sending raw email: " ++ e.msg],
        result := none }

/-- `AWSEmailSender.verify_email_address` (lines 131-149): requests
verification; prints and returns `True` when the provider accepts the
request, prints the failure and returns `False` on `ClientError`. -/
def verify_email_address (s : AWSEmailSender) (email_address : String) :
    OpResult Bool :=
  match s.ses_client.verifyEmailIdentityApi email_address with
  | Except.ok _ =>
      { state := s, log := ["Verification email sent to " ++ email_address],
        result := true }
  | Except.error e =>
      { state := s, log := ["Error verifying email address: " ++ e.msg],
        result := false }

/-- `AWSEmailSender.get_send_quota` (lines 151-163): returns the provider's
quota response unchanged; on `ClientError` prints the failure and returns
`None`. -/
def get_send_quota (s : AWSEmailSender) : OpResult (Option QuotaResponse) :=
  match s.ses_client.getSendQuotaApi () with
  | Except.ok r => { state := s, log := [], result := some r }
  | Except.error e =>
      { state := s, log := ["Error getting send quota: " ++ e.msg],
        result := none }

/-- Outcome of opening and reading a file as UTF-8 text: success with the
exact contents, `FileNotFoundError`, or any other read failure (e.g. a
UTF-8 decode error), with its string rendering. -/
inductive FileReadResult
  | ok (contents : String)
  | notFound
  | readError (msg : String)
  deriving Repr, DecidableEq

/-- `load_html_template` (lines 165-183) over a filesystem model `fs`
mapping paths to read outcomes: returns `(printed messages, result)`.
Success returns the exact contents; `FileNotFoundError` and any other
failure print a message and return `None`. -/
def load_html_template (fs : String → FileReadResult)
    (template_path : String) : List String × Option String :=
  match fs template_path with
  | FileReadResult.ok contents => ([], some contents)
  | FileReadResult.notFound =>
      (["Template file not found: " ++ template_path], none)
  | FileReadResult.readError e =>
      (["Error reading template file: " ++ e], none)

/-- A stub provider client whose every call succeeds, echoing a fixed
message id and fixed quota figures. -/
def okClient (mid : String) : SesClient :=
  { sendEmailApi := fun _ => Except.ok { MessageId := mid }
    sendRawEmailApi := fun _ => Except.ok { MessageId := mid }
    verifyEmailIdentityApi := fun _ => Except.ok ()
    getSendQuotaApi := fun _ =>
      Except.ok { Max24HourSend := "200", MaxSendRate := "1",
                  SentLast24Hours := "5" } }

/-- A stub provider client whose every call fails with the given error. -/
def failClient (m : String) : SesClient :=
  { sendEmailApi := fun _ => Except.error { msg := m }
    sendRawEmailApi := fun _ => Except.error { msg := m }
    verifyEmailIdentityApi := fun _ => Except.error { msg := m }
    getSendQuotaApi := fun _ => Except.error { msg := m } }

/-- An `AWSEmailSender` over the always-succeeding stub client. -/
def okSender : AWSEmailSender :=
  { region_name := "us-east-1", ses_client := okClient "msg-1" }

/-- An `AWSEmailSender` over the always-failing stub client. -/
def failSender : AWSEmailSender :=
  { region_name := "us-east-1", ses_client := failClient "boom" }

/-- A stub filesystem holding one readable UTF-8 file. -/
def stubFs : String → FileReadResult :=
  fun p =>
    if p = "template.html" then FileReadResult.ok "<h1>Hi</h1>"
    else FileReadResult.notFound

/-- Claim C1, counterexample: with `textBody` present but empty
(`some ""`), the raw-send MIME document contains exactly one part (the
HTML part), not the two parts the claim requires for every present
`textBody`: Python truthiness drops the empty text part. -/
theorem c1_counterexample :
    (some "" : Option String).isSome = true ∧
    (buildRawMime "a@x.com" ["b@x.com"] "Hi" "<p>Hi</p>"
        (some "")).parts =
      [{ subtype := MimeSubtype.html, content := "<p>Hi</p>",
         charset := "utf-8" }] := by
  exact ⟨rfl, rfl⟩

/-- Claim C1 (amended): the raw-send MIME document contains exactly one
part (the HTML part) and no text part when `textBody` is absent or empty,
and exactly two parts in the order text then HTML when `textBody` is
present and non-empty. -/
theorem c1_raw_mime_parts (sender_email subject html_content : String)
    (recipient_emails : List String) (text_content : Option String) :
    (text_content = none ∨ text_content = some "" →
      (buildRawMime sender_email recipient_emails subject html_content
          text_content).parts =
        [{ subtype := MimeSubtype.html, content := html_content,
           charset := "utf-8" }]) ∧
    (∀ t : String, text_content = some t → t ≠ "" →
      (buildRawMime sender_email recipient_emails subject html_content
          text_content).parts =
        [{ subtype := MimeSubtype.plain, content := t, charset := "utf-8" },
         { subtype := MimeSubtype.html, content := html_content,
           charset := "utf-8" }]) := by
  constructor
  · rintro (rfl | rfl) <;> rfl
  · rintro t rfl ht
    have hne : t.isEmpty = false := by
      rw [Bool.eq_false_iff]
      intro hemp
      exact ht ((String.isEmpty_iff t).mp hemp)
    simp [buildRawMime, truthyStr, hne]

/-- Claim C1 (amended), witness at concrete inputs: absent text gives one
HTML part; non-empty text gives text then HTML. -/
theorem c1_raw_mime_parts_witness :
    (buildRawMime "a@x.com" ["b@x.com"] "Hi" "<p>Hi</p>" none).parts =
      [{ subtype := MimeSubtype.html, content := "<p>Hi</p>",
         charset := "utf-8" }] ∧
    (buildRawMime "a@x.com" ["b@x.com"] "Hi" "<p>Hi</p>"
        (some "hello")).parts =
      [{ subtype := MimeSubtype.plain, content := "hello",
         charset := "utf-8" },
       { subtype := MimeSubtype.html, content := "<p>Hi</p>",
         charset := "utf-8" }] :=
  ⟨(c1_raw_mime_parts "a@x.com" "Hi" "<p>Hi</p>" ["b@x.com"] none).1
      (Or.inl rfl),
   (c1_raw_mime_parts "a@x.com" "Hi" "<p>Hi</p>" ["b@x.com"]
      (some "hello")).2 "hello" rfl (by decide)⟩

/-- Claim C2: for both `send_email` and `send_raw_email`, a
provider-reported failure is logged and yields `None` (the Lean model is
total, so no exception escapes), while a provider success yields the
provider's receipt, message identifier included, unchanged. -/
theorem c2_send_error_contract (s : AWSEmailSender) (sender_email : String)
    (recipient_emails : List String) (subject html_content : String)
    (text_content : Option String)
    (cc_emails bcc_emails : Option (List String)) :
    (∀ e, s.ses_client.sendEmailApi
        (sendEmailParams sender_email recipient_emails subject html_content
          text_content cc_emails bcc_emails) = Except.error e →
      (send_email s sender_email recipient_emails subject html_content
          text_content cc_emails bcc_emails).result = none ∧
      (send_email s sender_email recipient_emails subject html_content
          text_content cc_emails bcc_emails).log =
        ["Error sending email: " ++ e.msg]) ∧
    (∀ r, s.ses_client.sendEmailApi
        (sendEmailParams sender_email recipient_emails subject html_content
          text_content cc_emails bcc_emails) = Except.ok r →
      (send_email s sender_email recipient_emails subject html_content
          text_content cc_emails bcc_emails).result = some r) ∧
    (∀ e, s.ses_client.sendRawEmailApi
        (rawSendParams sender_email recipient_emails subject html_content
          text_content) = Except.error e →
      (send_raw_email s sender_email recipient_emails subject html_content
          text_content).result = none ∧
      (send_raw_email s sender_email recipient_emails subject html_content
          text_content).log = ["Error sending raw email: " ++ e.msg]) ∧
    (∀ r, s.ses_client.sendRawEmailApi
        (rawSendParams sender_email recipient_emails subject html_content
          text_content) = Except.ok r →
      (send_raw_email s sender_email recipient_emails subject html_content
          text_content).result = some r) := by
  refine ⟨fun e h => ?_, fun r h => ?_, fun e h => ?_, fun r h => ?_⟩ <;>
    simp [send_email, send_raw_email, h]

/-- Claim C2, witness: over the failing stub client both sends return
`None` with the failure logged; over the succeeding stub client both
return the receipt carrying the stub's message id `"msg-1"`. -/
theorem c2_send_error_contract_witness :
    ((send_email failSender "a@x.com" ["b@x.com"] "Hi" "<p>Hi</p>" none
        none none).result = none ∧
      (send_email failSender "a@x.com" ["b@x.com"] "Hi" "<p>Hi</p>" none
        none none).log = ["Error sending email: " ++ "boom"]) ∧
    (send_email okSender "a@x.com" ["b@x.com"] "Hi" "<p>Hi</p>" none none
        none).result = some { MessageId := "msg-1" } ∧
    ((send_raw_email failSender "a@x.com" ["b@x.com"] "Hi" "<p>Hi</p>"
        none).result = none ∧
      (send_raw_email failSender "a@x.com" ["b@x.com"] "Hi" "<p>Hi</p>"
        none).log = ["Error sending raw email: " ++ "boom"]) ∧
    (send_raw_email okSender "a@x.com" ["b@x.com"] "Hi" "<p>Hi</p>"
        none).result = some { MessageId := "msg-1" } :=
  ⟨(c2_send_error_contract failSender "a@x.com" ["b@x.com"] "Hi"
      "<p>Hi</p>" none none none).1 { msg := "boom" } rfl,
   (c2_send_error_contract okSender "a@x.com" ["b@x.com"] "Hi" "<p>Hi</p>"
      none none none).2.1 { MessageId := "msg-1" } rfl,
   (c2_send_error_contract failSender "a@x.com" ["b@x.com"] "Hi"
      "<p>Hi</p>" none none none).2.2.1 { msg := "boom" } rfl,
   (c2_send_error_contract okSender "a@x.com" ["b@x.com"] "Hi" "<p>Hi</p>"
      none none none).2.2.2 { MessageId := "msg-1" } rfl⟩

/-- Claim C3: the destination set has `ToAddresses` equal to the
recipients sequence, a `CcAddresses` key iff the cc input sequence is
non-empty (and then equal to it), and a `BccAddresses` key iff the bcc
input sequence is non-empty (and then equal to it). -/
theorem c3_destination_fields (recipient_emails : List String)
    (cc_emails bcc_emails : Option (List String)) :
    (buildDestination recipient_emails cc_emails
        bcc_emails).ToAddresses = recipient_emails ∧
    ((buildDestination recipient_emails cc_emails
        bcc_emails).CcAddresses.isSome ↔ cc_emails.getD [] ≠ []) ∧
    ((buildDestination recipient_emails cc_emails
        bcc_emails).BccAddresses.isSome ↔ bcc_emails.getD [] ≠ []) ∧
    (∀ l, cc_emails = some l → l ≠ [] →
      (buildDestination recipient_emails cc_emails
        bcc_emails).CcAddresses = some l) ∧
    (∀ l, bcc_emails = some l → l ≠ [] →
      (buildDestination recipient_emails cc_emails
        bcc_emails).BccAddresses = some l) := by
  refine ⟨rfl, ?_, ?_, ?_, ?_⟩
  · cases cc_emails with
    | none => simp [buildDestination, truthyList]
    | some l => cases l <;> simp [buildDestination, truthyList]
  · cases bcc_emails with
    | none => simp [buildDestination, truthyList]
    | some l => cases l <;> simp [buildDestination, truthyList]
  · rintro l rfl hl
    cases l with
    | nil => exact absurd rfl hl
    | cons a t => simp [buildDestination, truthyList]
  · rintro l rfl hl
    cases l with
    | nil => exact absurd rfl hl
    | cons a t => simp [buildDestination, truthyList]

/-- Claim C3, witness: concrete non-empty cc and empty bcc. -/
theorem c3_destination_fields_witness :
    (buildDestination ["b@x.com"] (some ["c@x.com"])
        (some [])).ToAddresses = ["b@x.com"] ∧
    (buildDestination ["b@x.com"] (some ["c@x.com"])
        (some [])).CcAddresses = some ["c@x.com"] ∧
    ((buildDestination ["b@x.com"] (some ["c@x.com"])
        (some [])).BccAddresses.isSome ↔
      (some [] : Option (List String)).getD [] ≠ []) :=
  ⟨(c3_destination_fields ["b@x.com"] (some ["c@x.com"]) (some [])).1,
   (c3_destination_fields ["b@x.com"] (some ["c@x.com"]) (some [])).2.2.2.1
     ["c@x.com"] rfl (by decide),
   (c3_destination_fields ["b@x.com"] (some ["c@x.com"]) (some [])).2.2.1⟩

/-- Claim C4: the structured message body always contains an HTML part
whose data is `htmlBody`, and contains a text part only if `textBody` was
supplied. -/
theorem c4_message_body (subject html_content : String)
    (text_content : Option String) :
    (buildSesMessage subject html_content
        text_content).Body.Html.Data = html_content ∧
    ((buildSesMessage subject html_content
        text_content).Body.Text.isSome → text_content.isSome) := by
  refine ⟨rfl, fun h => ?_⟩
  cases text_content with
  | none => simp [buildSesMessage, truthyStr] at h
  | some t => rfl

/-- Claim C4, witness: with supplied non-empty text the body's text part
exists and `textBody` is indeed supplied. -/
theorem c4_message_body_witness :
    (buildSesMessage "Hi" "<p>Hi</p>"
        (some "hello")).Body.Html.Data = "<p>Hi</p>" ∧
    (some "hello" : Option String).isSome = true :=
  ⟨(c4_message_body "Hi" "<p>Hi</p>" (some "hello")).1,
   (c4_message_body "Hi" "<p>Hi</p>" (some "hello")).2 rfl⟩

/-- Claim C5: the MIME document's `To` header is the comma-joined
rendering of `recipients`, and the `Destinations` argument passed to the
provider's raw-send capability is the `recipients` parameter itself,
independent of the `To` header value. -/
theorem c5_raw_header_and_destinations (sender_email : String)
    (recipient_emails : List String) (subject html_content : String)
    (text_content : Option String) :
    (rawSendParams sender_email recipient_emails subject html_content
        text_content).RawMessage.To =
      String.intercalate ", " recipient_emails ∧
    (rawSendParams sender_email recipient_emails subject html_content
        text_content).Destinations = recipient_emails :=
  ⟨rfl, rfl⟩

/-- Claim C6: `verify_email_address` returns `true` exactly when the
provider accepts the verification request (nothing about later owner
confirmation is consulted); on provider failure it logs the failure and
returns `false` (the model is total, so no exception escapes). -/
theorem c6_verify_contract (s : AWSEmailSender) (email_address : String) :
    ((verify_email_address s email_address).result = true ↔
      ∃ u, s.ses_client.verifyEmailIdentityApi email_address =
        Except.ok u) ∧
    (∀ e, s.ses_client.verifyEmailIdentityApi email_address =
        Except.error e →
      (verify_email_address s email_address).result = false ∧
      (verify_email_address s email_address).log =
        ["Error verifying email address: " ++ e.msg]) := by
  constructor
  · cases h : s.ses_client.verifyEmailIdentityApi email_address <;>
      simp [verify_email_address, h]
  · intro e h
    simp [verify_email_address, h]

/-- Claim C6, witness: the accepting stub yields `true`, the failing stub
yields `false` with the failure logged. -/
theorem c6_verify_contract_witness :
    (verify_email_address okSender "a@x.com").result = true ∧
    (verify_email_address failSender "a@x.com").result = false ∧
    (verify_email_address failSender "a@x.com").log =
      ["Error verifying email address: " ++ "boom"] :=
  ⟨(c6_verify_contract okSender "a@x.com").1.mpr ⟨(), rfl⟩,
   ((c6_verify_contract failSender "a@x.com").2 { msg := "boom" } rfl).1,
   ((c6_verify_contract failSender "a@x.com").2 { msg := "boom" } rfl).2⟩

/-- Claim C7: `load_html_template` returns the exact contents of a
readable UTF-8 file; on a missing file, or on any other read failure, it
logs a message and returns `None` (the model is total, so no exception
escapes). -/
theorem c7_load_template (fs : String → FileReadResult)
    (template_path : String) :
    (∀ c, fs template_path = FileReadResult.ok c →
      load_html_template fs template_path = ([], some c)) ∧
    (fs template_path = FileReadResult.notFound →
      load_html_template fs template_path =
        (["Template file not found: " ++ template_path], none)) ∧
    (∀ e, fs template_path = FileReadResult.readError e →
      load_html_template fs template_path =
        (["Error reading template file: " ++ e], none)) := by
  refine ⟨fun c h => ?_, fun h => ?_, fun e h => ?_⟩ <;>
    simp [load_html_template, h]

/-- Claim C7, witness: the stub filesystem's existing file is returned
verbatim; a nonexistent path yields `None` with a not-found message. -/
theorem c7_load_template_witness :
    load_html_template stubFs "template.html" = ([], some "<h1>Hi</h1>") ∧
    load_html_template stubFs "missing.html" =
      (["Template file not found: " ++ "missing.html"], none) :=
  ⟨(c7_load_template stubFs "template.html").1 "<h1>Hi</h1>" (by decide),
   (c7_load_template stubFs "missing.html").2.1 (by decide)⟩

/-- Claim C8: `get_send_quota` passes the provider's quota response (the
24-hour sending ceiling, max send rate and count sent in the current
window) through unchanged on success; on provider failure it logs the
failure and returns `None` (the model is total, so no exception
escapes). -/
theorem c8_quota_contract (s : AWSEmailSender) :
    (∀ r : QuotaResponse, s.ses_client.getSendQuotaApi () = Except.ok r →
      (get_send_quota s).result = some r ∧
      (get_send_quota s).result.map QuotaResponse.Max24HourSend =
        some r.Max24HourSend ∧
      (get_send_quota s).result.map QuotaResponse.MaxSendRate =
        some r.MaxSendRate ∧
      (get_send_quota s).result.map QuotaResponse.SentLast24Hours =
        some r.SentLast24Hours) ∧
    (∀ e, s.ses_client.getSendQuotaApi () = Except.error e →
      (get_send_quota s).result = none ∧
      (get_send_quota s).log = ["Error getting send quota: " ++ e.msg]) := by
  refine ⟨fun r h => ?_, fun e h => ?_⟩ <;> simp [get_send_quota, h]

/-- Claim C8, witness: the succeeding stub's quota figures come through
unchanged; the failing stub yields `None` with the failure logged. -/
theorem c8_quota_contract_witness :
    (get_send_quota okSender).result =
      some { Max24HourSend := "200", MaxSendRate := "1",
             SentLast24Hours := "5" } ∧
    (get_send_quota failSender).result = none ∧
    (get_send_quota failSender).log =
      ["Error getting send quota: " ++ "boom"] :=
  ⟨((c8_quota_contract okSender).1
      { Max24HourSend := "200", MaxSendRate := "1",
        SentLast24Hours := "5" } rfl).1,
   ((c8_quota_contract failSender).2 { msg := "boom" } rfl).1,
   ((c8_quota_contract failSender).2 { msg := "boom" } rfl).2⟩

/-- Claim C9: every operation leaves the `AWSEmailSender` state — its
region configuration and its provider client, fixed at construction —
unchanged, whether the provider call succeeds or fails. -/
theorem c9_state_unchanged (s : AWSEmailSender) (sender_email : String)
    (recipient_emails : List String)
    (subject html_content email_address : String)
    (text_content : Option String)
    (cc_emails bcc_emails : Option (List String)) :
    (send_email s sender_email recipient_emails subject html_content
        text_content cc_emails bcc_emails).state = s ∧
    (send_raw_email s sender_email recipient_emails subject html_content
        text_content).state = s ∧
    (verify_email_address s email_address).state = s ∧
    (get_send_quota s).state = s := by
  refine ⟨?_, ?_, ?_, ?_⟩
  · cases h : s.ses_client.sendEmailApi
        (sendEmailParams sender_email recipient_emails subject
          html_content text_content cc_emails bcc_emails) <;>
      simp [send_email, h]
  · cases h : s.ses_client.sendRawEmailApi
        (rawSendParams sender_email recipient_emails subject html_content
          text_content) <;>
      simp [send_raw_email, h]
  · cases h : s.ses_client.verifyEmailIdentityApi email_address <;>
      simp [verify_email_address, h]
  · cases h : s.ses_client.getSendQuotaApi () <;>
      simp [get_send_quota, h]

/-- Claim C10: because the code's presence checks test Python truthiness,
a supplied-but-empty `textBody` behaves exactly like an absent one in both
send paths, and a supplied-but-empty cc or bcc sequence behaves exactly
like an absent one in the structured send. -/
theorem c10_empty_equals_absent (s : AWSEmailSender) (sender_email : String)
    (recipient_emails : List String) (subject html_content : String)
    (text_content : Option String)
    (cc_emails bcc_emails : Option (List String)) :
    send_email s sender_email recipient_emails subject html_content
        (some "") cc_emails bcc_emails =
      send_email s sender_email recipient_emails subject html_content none
        cc_emails bcc_emails ∧
    send_raw_email s sender_email recipient_emails subject html_content
        (some "") =
      send_raw_email s sender_email recipient_emails subject html_content
        none ∧
    send_email s sender_email recipient_emails subject html_content
        text_content (some []) bcc_emails =
      send_email s sender_email recipient_emails subject html_content
        text_content none bcc_emails ∧
    send_email s sender_email recipient_emails subject html_content
        text_content cc_emails (some []) =
      send_email s sender_email recipient_emails subject html_content
        text_content cc_emails none :=
  ⟨rfl, rfl, rfl, rfl⟩

end AwsSes
